import Mathlib

/-!
Shallow embedding of the Presto Nordpool dashboard (src/dashboard.py) and
verification of its specification claims.

Modelling conventions:
* Python floats (prices, the timezone offset) are embedded as rationals `ℚ`;
  the thresholds and offsets involved are exactly representable.
* Python `int`s are embedded as `ℤ` (or `ℕ` where the source value is
  manifestly non-negative, such as hours and minutes read from a struct_time).
* Python `%` on integers with a positive modulus agrees with `Int.emod`.
* `list[a:b]` slicing is `(·.drop a).take (b - a)` for `0 ≤ a ≤ b`.
* The display pens returned by `price_color` are abstracted to a `Tier`
  inductive (Low / Mid / High), matching the three pens
  `C_PRICE_LOW / C_PRICE_MID / C_PRICE_HIGH`.
-/

namespace Dashboard

/-- Price values (c/kWh); Python floats embedded as rationals. -/
abbrev Price := ℚ

/-- The three pens `C_PRICE_LOW`, `C_PRICE_MID`, `C_PRICE_HIGH` of the source,
abstracted to a severity tier. -/
inductive Tier
  | Low
  | Mid
  | High
deriving DecidableEq, Repr

/-- `PRICE_LOW_THRESHOLD = 8.0` from dashboard.py line 36. -/
def PRICE_LOW_THRESHOLD : Price := 8

/-- `PRICE_MID_THRESHOLD = 15.0` from dashboard.py line 37. -/
def PRICE_MID_THRESHOLD : Price := 15

/-- `price_color` (dashboard.py lines 65-71): strict `<` against the two
thresholds, returning the Low / Mid / High pen. -/
def price_color (price : Price) : Tier :=
  if price < PRICE_LOW_THRESHOLD then Tier.Low
  else if price < PRICE_MID_THRESHOLD then Tier.Mid
  else Tier.High

/-- `in_quiet_hours` (dashboard.py lines 149-162), with the config globals
`QUIET_START` / `QUIET_END` made explicit parameters. -/
def in_quiet_hours (QUIET_START QUIET_END h : ℕ) : Bool :=
  if QUIET_START = QUIET_END then false
  else if QUIET_START < QUIET_END then decide (QUIET_START ≤ h ∧ h < QUIET_END)
  else decide (h ≥ QUIET_START ∨ h < QUIET_END)

/-- Python `int()` applied to a (here: rational) number truncates toward
zero. -/
def pyInt (q : ℚ) : ℤ := if 0 ≤ q then ⌊q⌋ else ⌈q⌉

/-- `get_local_time_hm` (dashboard.py lines 103-112), with the UTC clock
reading `(t[3], t[4])` and the config global `TIMEZONE_OFFSET` (hours, may be
fractional) made explicit parameters.  Returns `(h, m)` as Python ints. -/
def get_local_time_hm (utcH utcM : ℕ) (TIMEZONE_OFFSET : ℚ) : ℤ × ℤ :=
  let utc_minutes : ℤ := utcH * 60 + utcM
  let local_minutes : ℤ := utc_minutes + pyInt (TIMEZONE_OFFSET * 60)
  let local_minutes : ℤ := local_minutes % (24 * 60)
  (local_minutes / 60, local_minutes % 60)

/-- Value of a decimal digit character, `ord(c) - ord('0')`. -/
def digitVal (c : Char) : ℕ := c.toNat - 48

/-- `parse_hm` (dashboard.py lines 135-137): take `ts[11:16]` (the `"HH:MM"`
substring of a timestamp like `"2026-02-16T18:30:00+02:00"`) and read the two
two-digit decimal numbers `int(t[:2])` and `int(t[3:5])`.  Totalised with the
digit `'0'` for out-of-range positions; every timestamp considered by the
claims is well-formed, where this agrees with Python. -/
def parse_hm (ts : String) : ℕ × ℕ :=
  let t := (ts.toList.drop 11).take 5
  (digitVal (t.getD 0 '0') * 10 + digitVal (t.getD 1 '0'),
   digitVal (t.getD 3 '0') * 10 + digitVal (t.getD 4 '0'))

/-- One entry of `raw_today` / `raw_tomorrow`: a dict with a `"start"`
timestamp string and a `"value"` price. -/
structure PriceSlot where
  start : String
  value : Price
deriving DecidableEq, Repr

/-- The ephemeral chart window computed in `draw_dashboard`
(dashboard.py lines 182-199): the sliced slots and the `now_offset` index.
`now_offset` is kept as a Python int (`ℤ`), as in the source. -/
structure ChartWindow where
  slots : List PriceSlot
  nowOffset : ℤ
deriving DecidableEq, Repr

/-- The match test of the slot-location loop (dashboard.py line 189):
`sh == now_h and sm == now_quarter` with `(sh, sm) = parse_hm(s["start"])`. -/
def slot_matches (now_h now_quarter : ℕ) (s : PriceSlot) : Bool :=
  (parse_hm s.start).1 = now_h ∧ (parse_hm s.start).2 = now_quarter

/-- The slot-location loop (dashboard.py lines 186-191): `now_idx = 0`, then
scan `all_slots` in order and `break` at the first match — i.e. the index of
the first matching slot, or the default `0` when none matches. -/
def find_now_idx (all_slots : List PriceSlot) (now_h now_quarter : ℕ) : ℕ :=
  (all_slots.findIdx? (slot_matches now_h now_quarter)).getD 0

/-- `start_idx = max(0, now_idx - CHART_SLOTS_PAST)` (dashboard.py line 194). -/
def window_start_idx (now_idx : ℕ) (past : ℕ) : ℤ :=
  max 0 ((now_idx : ℤ) - past)

/-- `end_idx = now_idx + CHART_SLOTS_FUTURE` (dashboard.py line 195). -/
def window_end_idx (now_idx : ℕ) (future : ℕ) : ℤ :=
  (now_idx : ℤ) + future

/-- The slot-window computation of `draw_dashboard`
(dashboard.py lines 182-199): concatenate today and tomorrow, bucket the
current minute to a quarter hour, locate the current slot (default 0), slice
`all_slots[start_idx:end_idx]` and record `now_offset = now_idx - start_idx`.
The chart constants `CHART_SLOTS_PAST = 4` and `CHART_SLOTS_FUTURE = 20` are
passed as the `past` / `future` parameters. -/
def buildWindow (raw_today raw_tomorrow : List PriceSlot) (now_h now_m : ℕ)
    (past future : ℕ) : ChartWindow :=
  let all_slots := raw_today ++ raw_tomorrow
  let now_quarter := (now_m / 15) * 15
  let now_idx := find_now_idx all_slots now_h now_quarter
  let start_idx := window_start_idx now_idx past
  let end_idx := window_end_idx now_idx future
  let chart_data := (all_slots.drop start_idx.toNat).take (end_idx - start_idx).toNat
  { slots := chart_data, nowOffset := (now_idx : ℤ) - start_idx }

/-- The now-marker guard (dashboard.py line 290):
`0 <= now_offset < len(chart_vals)`; `chart_vals` has one value per slot of
the window, so its length is the window length. -/
def now_marker_drawn (w : ChartWindow) : Prop :=
  0 ≤ w.nowOffset ∧ w.nowOffset < (w.slots.length : ℤ)

instance (w : ChartWindow) : Decidable (now_marker_drawn w) := by
  unfold now_marker_drawn; infer_instance

/-- The run-time configuration globals read by the main loop. -/
structure Config where
  QUIET_START : ℕ
  QUIET_END : ℕ
  WAKE_DURATION : ℤ
  REFRESH_SECS : ℤ

/-- The backlight portion of one main-loop iteration
(dashboard.py lines 359-385): touch handling followed by the
screen-on decision.  State is `(screen_on, woke_at)`; inputs are the quiet
flag, the polled `touch.state`, and `now_ticks`.  Returns the updated state. -/
def backlight_step (cfg : Config) (screen_on : Bool) (woke_at : Option ℤ)
    (quiet touch : Bool) (now_ticks : ℤ) : Bool × Option ℤ :=
  -- touch detection: wake on touch during quiet hours
  let s1 : Bool × Option ℤ :=
    if touch && quiet then (true, some now_ticks) else (screen_on, woke_at)
  -- decide whether screen should be on
  if quiet then
    if s1.1 then
      match s1.2 with
      | none => (false, none)
      | some w =>
          if now_ticks - w ≥ cfg.WAKE_DURATION then (false, none)
          else s1
    else s1
  else (true, none)

/-- What a main-loop iteration draws: the error screen (`draw_error`) or the
dashboard (`draw_dashboard` on the cached payload). -/
inductive DrawEvent (α : Type)
  | errorScreen (msg : String)
  | dashboard (d : α)
deriving DecidableEq, Repr

/-- The mutable state owned by the main loop (dashboard.py lines 346-349):
backlight state, wake timestamp, cached fetch payload, last fetch time. -/
structure LoopState (α : Type) where
  screen_on : Bool
  woke_at : Option ℤ
  cached_data : Option α
  last_fetch_time : ℤ
deriving DecidableEq, Repr

/-- One iteration of the main `while True` loop (dashboard.py lines 354-410),
excluding the final sleep.  The quiet flag comes from
`in_quiet_hours(get_local_time_hm()[0])`; here the already-computed local hour
`now_h` is an input.  The outcome of `fetch_nordpool()` — only consulted when
the refresh interval has elapsed — is an oracle input `fetch` (`Except` for
the Python exception).  Returns the updated state and the list of draw calls
made during the iteration (a failed fetch `continue`s, skipping the redraw;
`draw_dashboard` itself is modelled as always succeeding). -/
def tick {α : Type} (cfg : Config) (st : LoopState α) (now_ticks : ℤ)
    (now_h : ℕ) (touch : Bool) (fetch : Except String α) :
    LoopState α × List (DrawEvent α) :=
  let quiet := in_quiet_hours cfg.QUIET_START cfg.QUIET_END now_h
  let bl := backlight_step cfg st.screen_on st.woke_at quiet touch now_ticks
  if now_ticks - st.last_fetch_time ≥ cfg.REFRESH_SECS then
    match fetch with
    | Except.ok d =>
        let st' : LoopState α :=
          { screen_on := bl.1, woke_at := bl.2,
            cached_data := some d, last_fetch_time := now_ticks }
        (st', if st'.screen_on then [DrawEvent.dashboard d] else [])
    | Except.error e =>
        ({ st with screen_on := bl.1, woke_at := bl.2 },
         if bl.1 then [DrawEvent.errorScreen e] else [])
  else
    let st' : LoopState α := { st with screen_on := bl.1, woke_at := bl.2 }
    (st',
     match st'.cached_data with
     | some d => if st'.screen_on then [DrawEvent.dashboard d] else []
     | none => [])

/-- Iterate `backlight_step` over a sequence of quiet, untouched ticks with
the given timestamps. -/
def backlight_run_untouched (cfg : Config) (s : Bool × Option ℤ)
    (times : List ℤ) : Bool × Option ℤ :=
  times.foldl (fun st n => backlight_step cfg st.1 st.2 true false n) s

/-- Wrap-forward modulus on rationals (agrees with `Int.emod` on integers);
used to state the spec's `... mod 1440` round-trip formula for possibly
fractional minute counts. -/
def ratMod (q n : ℚ) : ℚ := q - n * ⌊q / n⌋

/-- `pyInt` of an integer is that integer. -/
theorem pyInt_intCast (k : ℤ) : pyInt (k : ℚ) = k := by
  unfold pyInt
  split_ifs <;> simp

/-! ## Claim theorems -/

/-- C8: with thresholds `lowMax = 8.0` and `midMax = 15.0`, `price_color`
returns Low iff price < 8, Mid iff 8 ≤ price < 15, High iff 15 ≤ price;
boundary values 8.0 and 15.0 land in the higher tier. -/
theorem C8_tier_boundaries :
    (∀ p : Price,
      (price_color p = Tier.Low ↔ p < 8)
      ∧ (price_color p = Tier.Mid ↔ 8 ≤ p ∧ p < 15)
      ∧ (price_color p = Tier.High ↔ 15 ≤ p))
    ∧ price_color 8 = Tier.Mid ∧ price_color 15 = Tier.High := by
  refine ⟨fun p => ?_, by decide, by decide⟩
  unfold price_color PRICE_LOW_THRESHOLD PRICE_MID_THRESHOLD
  split_ifs with h1 h2
  · exact ⟨iff_of_true rfl h1,
      iff_of_false (by decide) (fun hc => absurd hc.1 (not_le.mpr h1)),
      iff_of_false (by decide) (not_le.mpr (by linarith))⟩
  · exact ⟨iff_of_false (by decide) h1,
      iff_of_true rfl ⟨not_lt.mp h1, h2⟩,
      iff_of_false (by decide) (not_le.mpr h2)⟩
  · exact ⟨iff_of_false (by decide) h1,
      iff_of_false (by decide) (fun hc => h2 hc.2),
      iff_of_true rfl (not_lt.mp h2)⟩

/-- C5: `in_quiet_hours` is always false when start = end, encodes the
same-day window when start < end, and the midnight-wrapping window when
start > end, for all hours and bounds in 0–23. -/
theorem C5_in_quiet_hours (h s e : ℕ) (hh : h < 24) (hs : s < 24) (he : e < 24) :
    (s = e → in_quiet_hours s e h = false)
    ∧ (s < e → (in_quiet_hours s e h = true ↔ s ≤ h ∧ h < e))
    ∧ (e < s → (in_quiet_hours s e h = true ↔ h ≥ s ∨ h < e)) := by
  unfold in_quiet_hours
  refine ⟨fun hc => ?_, fun hc => ?_, fun hc => ?_⟩ <;>
    split_ifs <;> simp_all <;> omega

/-- Witness for C5 at the spec's example points:
`isQuiet(23, 23, 7) = true`, `isQuiet(7, 23, 7) = false`,
`isQuiet(12, 23, 7) = false`. -/
theorem C5_in_quiet_hours_witness :
    in_quiet_hours 23 7 23 = true
    ∧ in_quiet_hours 23 7 7 = false
    ∧ in_quiet_hours 23 7 12 = false := by
  have h23 := (C5_in_quiet_hours 23 23 7 (by decide) (by decide) (by decide)).2.2
  have h7 := (C5_in_quiet_hours 7 23 7 (by decide) (by decide) (by decide)).2.2
  have h12 := (C5_in_quiet_hours 12 23 7 (by decide) (by decide) (by decide)).2.2
  refine ⟨(h23 (by decide)).mpr (Or.inl (by decide)), ?_, ?_⟩
  · cases hb : in_quiet_hours 23 7 7
    · rfl
    · exact absurd ((h7 (by decide)).mp hb) (by decide)
  · cases hb : in_quiet_hours 23 7 12
    · rfl
    · exact absurd ((h12 (by decide)).mp hb) (by decide)

/-- C6 counterexample: for the fractional offset `1/100` hours the code
computes `int(0.01 * 60) = 0`, so `get_local_time_hm 0 0 (1/100) = (0, 0)`
and the result's minutes-since-midnight is `0`, while the claim's formula
`(0*60 + 0 + (1/100)*60) mod 1440 = 3/5` — the claimed round-trip identity
fails for this offset. -/
theorem C6_counterexample :
    ¬ ((((get_local_time_hm 0 0 (1/100)).1 * 60
          + (get_local_time_hm 0 0 (1/100)).2 : ℤ) : ℚ)
        = ratMod ((0 : ℚ) * 60 + 0 + (1/100) * 60) 1440) := by
  have h1 : get_local_time_hm 0 0 (1/100) = (0, 0) := by
    unfold get_local_time_hm pyInt
    norm_num
  have h2 : ratMod ((0 : ℚ) * 60 + 0 + (1/100) * 60) 1440 = 3/5 := by
    have hf : ⌊((0 : ℚ) * 60 + 0 + (1/100) * 60) / 1440⌋ = 0 := by
      rw [Int.floor_eq_zero_iff, Set.mem_Ico]
      norm_num
    unfold ratMod
    rw [hf]
    norm_num
  rw [h1, h2]
  norm_num

/-- C6 amended: for every valid UTC hour/minute and every rational offset,
`get_local_time_hm` returns an hour in 0–23 and a minute in 0–59, and the
round-trip minutes-since-midnight equals
`(hour*60 + minute + int(offset*60)) mod 1440`, where `int` truncates toward
zero; this coincides with the claim's `offset*60` exactly when `offset*60` is
an integer. -/
theorem C6_local_time_round_trip (utcH utcM : ℕ) (q : ℚ)
    (hh : utcH < 24) (hm : utcM < 60) :
    (0 ≤ (get_local_time_hm utcH utcM q).1 ∧ (get_local_time_hm utcH utcM q).1 < 24)
    ∧ (0 ≤ (get_local_time_hm utcH utcM q).2 ∧ (get_local_time_hm utcH utcM q).2 < 60)
    ∧ (get_local_time_hm utcH utcM q).1 * 60 + (get_local_time_hm utcH utcM q).2
        = ((utcH : ℤ) * 60 + utcM + pyInt (q * 60)) % 1440
    ∧ (∀ k : ℤ, q * 60 = (k : ℚ) →
        (get_local_time_hm utcH utcM q).1 * 60 + (get_local_time_hm utcH utcM q).2
          = ((utcH : ℤ) * 60 + utcM + k) % 1440) := by
  have hki : ∀ k : ℤ, q * 60 = (k : ℚ) → pyInt (q * 60) = k := by
    intro k hk
    rw [hk, pyInt_intCast]
  unfold get_local_time_hm
  simp only []
  refine ⟨⟨?_, ?_⟩, ⟨?_, ?_⟩, ?_, ?_⟩
  · omega
  · omega
  · omega
  · omega
  · omega
  · intro k hk
    rw [← hki k hk]
    omega

/-- Witness for C6 amended at `utc = 13:30`, `offset = -(5/2)` hours
(`int(-150.0) = -150`): local time is `11:00`. -/
theorem C6_local_time_round_trip_witness :
    (0 ≤ (get_local_time_hm 13 30 (-(5/2))).1 ∧ (get_local_time_hm 13 30 (-(5/2))).1 < 24)
    ∧ (0 ≤ (get_local_time_hm 13 30 (-(5/2))).2 ∧ (get_local_time_hm 13 30 (-(5/2))).2 < 60)
    ∧ (get_local_time_hm 13 30 (-(5/2))).1 * 60 + (get_local_time_hm 13 30 (-(5/2))).2
        = ((13 : ℤ) * 60 + 30 + pyInt ((-(5/2)) * 60)) % 1440
    ∧ (∀ k : ℤ, (-(5/2) : ℚ) * 60 = (k : ℚ) →
        (get_local_time_hm 13 30 (-(5/2))).1 * 60 + (get_local_time_hm 13 30 (-(5/2))).2
          = ((13 : ℤ) * 60 + 30 + k) % 1440) :=
  C6_local_time_round_trip 13 30 (-(5/2)) (by decide) (by decide)

/-- Two-digit zero-padded decimal rendering, `"{:02d}".format n` for n < 100. -/
def two_digit (n : ℕ) : String :=
  ⟨[Char.ofNat (48 + n / 10), Char.ofNat (48 + n % 10)]⟩

/-- A Nordpool-style slot-start timestamp for the given local hour/minute. -/
def mk_start (h m : ℕ) : String :=
  "2026-02-16T" ++ two_digit h ++ ":" ++ two_digit m ++ ":00+02:00"

/-- A series of 96 consecutive 15-minute slots covering one day from 00:00. -/
def series96 : List PriceSlot :=
  (List.range 96).map (fun i => { start := mk_start (i / 4) ((i % 4) * 15), value := 1 })

/-- C3: on the 96-slot day series with current time 14:07 and
past = 4 / future = 20, the window computation locates index 56 — the slot
starting at 14:00 — as the current slot, and returns `nowOffset = 4` and a
24-slot window. -/
theorem C3_window_example :
    find_now_idx series96 14 ((7 / 15) * 15) = 56
    ∧ (series96.getD 56 ⟨"", 0⟩).start = mk_start 14 0
    ∧ parse_hm (mk_start 14 0) = (14, 0)
    ∧ (buildWindow series96 [] 14 7 4 20).nowOffset = 4
    ∧ (buildWindow series96 [] 14 7 4 20).slots.length = 24 := by
  refine ⟨?_, ?_, ?_, ?_, ?_⟩ <;> rfl

/-- A single price slot starting at 00:00 — a series that does not cover a
current time of 14:07. -/
def slotC1 : PriceSlot := ⟨"2026-02-16T00:00:00+02:00", 5⟩

/-- C1 counterexample: with the one-slot series `[slotC1]` (start 00:00) and
current time 14:07, no slot matches (a `DataAlignmentMiss`), the found index
defaults to 0 — but the now-marker guard `0 ≤ now_offset < len` holds
(`now_offset = 0`, window length 1), so the marker IS drawn, not suppressed
as the claim states. -/
theorem C1_counterexample :
    slot_matches 14 ((7 / 15) * 15) slotC1 = false
    ∧ (buildWindow [slotC1] [] 14 7 4 20).nowOffset = 0
    ∧ now_marker_drawn (buildWindow [slotC1] [] 14 7 4 20) := by
  refine ⟨rfl, rfl, ?_⟩
  rw [show buildWindow [slotC1] [] 14 7 4 20
        = { slots := [slotC1], nowOffset := 0 } from rfl]
  exact ⟨le_refl 0, by norm_num⟩

/-- Unfolding lemma for `buildWindow` with the `let` bindings resolved. -/
theorem buildWindow_eq (raw_today raw_tomorrow : List PriceSlot)
    (now_h now_m past future : ℕ) :
    buildWindow raw_today raw_tomorrow now_h now_m past future
      = { slots :=
            ((raw_today ++ raw_tomorrow).drop
                (window_start_idx
                  (find_now_idx (raw_today ++ raw_tomorrow) now_h ((now_m / 15) * 15))
                  past).toNat).take
              ((window_end_idx
                  (find_now_idx (raw_today ++ raw_tomorrow) now_h ((now_m / 15) * 15))
                  future
                - window_start_idx
                    (find_now_idx (raw_today ++ raw_tomorrow) now_h ((now_m / 15) * 15))
                    past).toNat),
          nowOffset :=
            (find_now_idx (raw_today ++ raw_tomorrow) now_h ((now_m / 15) * 15) : ℤ)
              - window_start_idx
                  (find_now_idx (raw_today ++ raw_tomorrow) now_h ((now_m / 15) * 15))
                  past } := rfl

/-- C1 amended: on a `DataAlignmentMiss` (no slot of the series matches the
current quarter-hour), the found index defaults to 0 without error,
`nowOffset = 0`, and the now-marker is suppressed exactly when the extracted
window is empty; on a non-empty window it is drawn (at offset 0). -/
theorem C1_alignment_miss (raw_today raw_tomorrow : List PriceSlot)
    (now_h now_m past future : ℕ)
    (hmiss : (raw_today ++ raw_tomorrow).findIdx?
        (slot_matches now_h ((now_m / 15) * 15)) = none) :
    find_now_idx (raw_today ++ raw_tomorrow) now_h ((now_m / 15) * 15) = 0
    ∧ (buildWindow raw_today raw_tomorrow now_h now_m past future).nowOffset = 0
    ∧ (now_marker_drawn (buildWindow raw_today raw_tomorrow now_h now_m past future)
        ↔ (buildWindow raw_today raw_tomorrow now_h now_m past future).slots ≠ []) := by
  have hidx : find_now_idx (raw_today ++ raw_tomorrow) now_h ((now_m / 15) * 15) = 0 := by
    unfold find_now_idx
    rw [hmiss]
    rfl
  have hstart : window_start_idx 0 past = 0 := by
    unfold window_start_idx
    omega
  refine ⟨hidx, ?_, ?_⟩
  · rw [buildWindow_eq, hidx, hstart]
    simp
  · rw [buildWindow_eq, hidx, hstart]
    unfold now_marker_drawn
    simp only [Nat.cast_zero, sub_zero, le_refl, true_and, Int.toNat_zero,
      List.drop_zero]
    constructor
    · intro hlt
      rw [← List.length_pos_iff_ne_nil]
      exact_mod_cast hlt
    · intro hne
      have : 0 < (List.take (window_end_idx 0 future - 0).toNat
          (raw_today ++ raw_tomorrow)).length := List.length_pos_iff_ne_nil.mpr hne
      exact_mod_cast this

/-- Witness for C1 amended at the concrete miss input `[slotC1]`, 14:07. -/
theorem C1_alignment_miss_witness :
    find_now_idx ([slotC1] ++ []) 14 ((7 / 15) * 15) = 0
    ∧ (buildWindow [slotC1] [] 14 7 4 20).nowOffset = 0
    ∧ (now_marker_drawn (buildWindow [slotC1] [] 14 7 4 20)
        ↔ (buildWindow [slotC1] [] 14 7 4 20).slots ≠ []) :=
  C1_alignment_miss [slotC1] [] 14 7 4 20 (by decide)

/-- The located index never exceeds the series length: a found index is a
valid position, and the fallback is 0. -/
theorem find_now_idx_le_length (all_slots : List PriceSlot) (now_h now_quarter : ℕ) :
    find_now_idx all_slots now_h now_quarter ≤ all_slots.length := by
  unfold find_now_idx
  cases hf : all_slots.findIdx? (slot_matches now_h now_quarter) with
  | none => simp
  | some i =>
      have hi := (List.findIdx?_eq_some_iff_findIdx_eq.mp hf).1
      simpa using le_of_lt hi

/-- C7: the degraded windows — an empty series yields an empty window with
`nowOffset = 0` and no now-marker (no error); a `pastCount` exceeding the
available history clamps the window start to index 0; an `endIdx` beyond the
series end yields a window strictly shorter than requested, not an error. -/
theorem C7_degraded_windows :
    (∀ now_h now_m past future : ℕ,
      buildWindow [] [] now_h now_m past future = { slots := [], nowOffset := 0 }
      ∧ ¬ now_marker_drawn (buildWindow [] [] now_h now_m past future))
    ∧ (∀ now_idx past : ℕ, now_idx < past → window_start_idx now_idx past = 0)
    ∧ (∀ (raw_today raw_tomorrow : List PriceSlot) (now_h now_m past future : ℕ),
        ((raw_today ++ raw_tomorrow).length : ℤ)
            < window_end_idx
                (find_now_idx (raw_today ++ raw_tomorrow) now_h ((now_m / 15) * 15))
                future →
        ((buildWindow raw_today raw_tomorrow now_h now_m past future).slots.length : ℤ)
          < window_end_idx
              (find_now_idx (raw_today ++ raw_tomorrow) now_h ((now_m / 15) * 15))
              future
            - window_start_idx
                (find_now_idx (raw_today ++ raw_tomorrow) now_h ((now_m / 15) * 15))
                past) := by
  refine ⟨?_, ?_, ?_⟩
  · intro now_h now_m past future
    have hwin : buildWindow [] [] now_h now_m past future
        = { slots := [], nowOffset := 0 } := by
      rw [buildWindow_eq]
      have hz : find_now_idx ([] ++ []) now_h ((now_m / 15) * 15) = 0 := rfl
      rw [hz]
      have hs : window_start_idx 0 past = 0 := by unfold window_start_idx; omega
      rw [hs]
      simp
    refine ⟨hwin, ?_⟩
    rw [hwin]
    unfold now_marker_drawn
    simp
  · intro now_idx past hlt
    unfold window_start_idx
    omega
  · intro raw_today raw_tomorrow now_h now_m past future hbeyond
    have hle := find_now_idx_le_length (raw_today ++ raw_tomorrow) now_h ((now_m / 15) * 15)
    have hlen : (buildWindow raw_today raw_tomorrow now_h now_m past future).slots.length
        = min ((window_end_idx
                  (find_now_idx (raw_today ++ raw_tomorrow) now_h ((now_m / 15) * 15))
                  future
                - window_start_idx
                    (find_now_idx (raw_today ++ raw_tomorrow) now_h ((now_m / 15) * 15))
                    past).toNat)
            ((raw_today ++ raw_tomorrow).length
              - (window_start_idx
                  (find_now_idx (raw_today ++ raw_tomorrow) now_h ((now_m / 15) * 15))
                  past).toNat) := by
      rw [buildWindow_eq]
      simp [List.length_take, List.length_drop]
    rw [hlen]
    unfold window_start_idx window_end_idx at *
    omega

/-- A slot starting at 00:00 used for the shorter-than-requested window
witness of C7. -/
def slotC7 : PriceSlot := ⟨"2026-02-16T00:00:00+02:00", 2⟩

/-- Witness for C7: empty-series window at 14:07; start clamped to 0 for
`now_idx = 2 < past = 4`; requested end 20 beyond the one-slot series at
00:02 yields a 1-slot window, shorter than the requested 20. -/
theorem C7_degraded_windows_witness :
    buildWindow [] [] 14 7 4 20 = { slots := [], nowOffset := 0 }
    ∧ window_start_idx 2 4 = 0
    ∧ ((buildWindow [slotC7] [] 0 2 4 20).slots.length : ℤ)
        < window_end_idx (find_now_idx ([slotC7] ++ []) 0 ((2 / 15) * 15)) 20
          - window_start_idx (find_now_idx ([slotC7] ++ []) 0 ((2 / 15) * 15)) 4 :=
  ⟨(C7_degraded_windows.1 14 7 4 20).1,
   C7_degraded_windows.2.1 2 4 (by decide),
   C7_degraded_windows.2.2 [slotC7] [] 0 2 4 20 (by decide)⟩

/-- C9: for every series and current time (with a positive future count, as
in the code's `CHART_SLOTS_FUTURE = 20`), `now_offset = min(now_idx, past)`,
so it always lies in `[0, past]` and is never negative; whenever the
extracted window is non-empty the marker guard `0 ≤ now_offset < len` holds
and the now-marker is drawn — including on a `DataAlignmentMiss` over a
non-empty series, where it is drawn at offset 0. -/
theorem C9_now_offset_invariant (raw_today raw_tomorrow : List PriceSlot)
    (now_h now_m past future : ℕ) (hfut : 0 < future) :
    (buildWindow raw_today raw_tomorrow now_h now_m past future).nowOffset
        = min (find_now_idx (raw_today ++ raw_tomorrow) now_h ((now_m / 15) * 15) : ℤ)
            past
    ∧ 0 ≤ (buildWindow raw_today raw_tomorrow now_h now_m past future).nowOffset
    ∧ (buildWindow raw_today raw_tomorrow now_h now_m past future).nowOffset ≤ past
    ∧ ((buildWindow raw_today raw_tomorrow now_h now_m past future).slots ≠ [] →
        now_marker_drawn (buildWindow raw_today raw_tomorrow now_h now_m past future))
    ∧ ((raw_today ++ raw_tomorrow).findIdx?
          (slot_matches now_h ((now_m / 15) * 15)) = none →
        raw_today ++ raw_tomorrow ≠ [] →
        (buildWindow raw_today raw_tomorrow now_h now_m past future).nowOffset = 0
        ∧ now_marker_drawn (buildWindow raw_today raw_tomorrow now_h now_m past future)) := by
  have hoff : (buildWindow raw_today raw_tomorrow now_h now_m past future).nowOffset
      = (find_now_idx (raw_today ++ raw_tomorrow) now_h ((now_m / 15) * 15) : ℤ)
        - window_start_idx
            (find_now_idx (raw_today ++ raw_tomorrow) now_h ((now_m / 15) * 15)) past := by
    rw [buildWindow_eq]
  have hlen : (buildWindow raw_today raw_tomorrow now_h now_m past future).slots.length
      = min ((window_end_idx
                (find_now_idx (raw_today ++ raw_tomorrow) now_h ((now_m / 15) * 15))
                future
              - window_start_idx
                  (find_now_idx (raw_today ++ raw_tomorrow) now_h ((now_m / 15) * 15))
                  past).toNat)
          ((raw_today ++ raw_tomorrow).length
            - (window_start_idx
                (find_now_idx (raw_today ++ raw_tomorrow) now_h ((now_m / 15) * 15))
                past).toNat) := by
    rw [buildWindow_eq]
    simp [List.length_take, List.length_drop]
  have hle := find_now_idx_le_length (raw_today ++ raw_tomorrow) now_h ((now_m / 15) * 15)
  have hidxlt : (buildWindow raw_today raw_tomorrow now_h now_m past future).slots ≠ [] →
      find_now_idx (raw_today ++ raw_tomorrow) now_h ((now_m / 15) * 15)
        < (raw_today ++ raw_tomorrow).length := by
    intro hne
    have hpos : 0 < (buildWindow raw_today raw_tomorrow now_h now_m past future).slots.length :=
      List.length_pos.mpr hne
    cases hfind : (raw_today ++ raw_tomorrow).findIdx?
        (slot_matches now_h ((now_m / 15) * 15)) with
    | some i =>
        have hi := (List.findIdx?_eq_some_iff_findIdx_eq.mp hfind).1
        have heq : find_now_idx (raw_today ++ raw_tomorrow) now_h ((now_m / 15) * 15) = i := by
          unfold find_now_idx
          rw [hfind]
          rfl
        omega
    | none =>
        have heq : find_now_idx (raw_today ++ raw_tomorrow) now_h ((now_m / 15) * 15) = 0 := by
          unfold find_now_idx
          rw [hfind]
          rfl
        rw [hlen] at hpos
        unfold window_start_idx window_end_idx at hpos
        omega
  refine ⟨?_, ?_, ?_, ?_, ?_⟩
  · rw [hoff]
    unfold window_start_idx
    omega
  · rw [hoff]
    unfold window_start_idx
    omega
  · rw [hoff]
    unfold window_start_idx
    omega
  · intro hne
    have h1 := hidxlt hne
    unfold now_marker_drawn
    rw [hoff, hlen]
    unfold window_start_idx window_end_idx
    omega
  · intro hmiss hne
    have hz : find_now_idx (raw_today ++ raw_tomorrow) now_h ((now_m / 15) * 15) = 0 := by
      unfold find_now_idx
      rw [hmiss]
      rfl
    have hLpos : 0 < (raw_today ++ raw_tomorrow).length := List.length_pos.mpr hne
    constructor
    · rw [hoff, hz]
      unfold window_start_idx
      omega
    · unfold now_marker_drawn
      rw [hoff, hlen, hz]
      unfold window_start_idx window_end_idx
      omega

/-- A slot starting at 14:00 used for the C9 witness. -/
def slotC9 : PriceSlot := ⟨"2026-02-16T14:00:00+02:00", 3⟩

/-- Witness for C9 at the one-slot series `[slotC9]` with current time 14:07
and the code's `past = 4`, `future = 20`. -/
theorem C9_now_offset_invariant_witness :
    (buildWindow [slotC9] [] 14 7 4 20).nowOffset
        = min (find_now_idx ([slotC9] ++ []) 14 ((7 / 15) * 15) : ℤ) 4
    ∧ 0 ≤ (buildWindow [slotC9] [] 14 7 4 20).nowOffset
    ∧ (buildWindow [slotC9] [] 14 7 4 20).nowOffset ≤ 4
    ∧ ((buildWindow [slotC9] [] 14 7 4 20).slots ≠ [] →
        now_marker_drawn (buildWindow [slotC9] [] 14 7 4 20))
    ∧ (([slotC9] ++ []).findIdx? (slot_matches 14 ((7 / 15) * 15)) = none →
        [slotC9] ++ [] ≠ [] →
        (buildWindow [slotC9] [] 14 7 4 20).nowOffset = 0
        ∧ now_marker_drawn (buildWindow [slotC9] [] 14 7 4 20)) :=
  C9_now_offset_invariant [slotC9] [] 14 7 4 20 (by decide)

/-- C2: for a positive wake duration, the per-tick backlight step satisfies:
(i) from OFF on a non-quiet tick the state is ON (with the wake timer
cleared); (ii) from ON on a quiet, untouched tick with no wake timer the
state is OFF; (iii) a touch at time `t` on a quiet tick puts the state ON
with the wake timer at `t`, the state stays exactly `(ON, t)` through any
sequence of quiet untouched ticks whose times satisfy `now - t < WAKE`, and
the first quiet untouched tick with `now - t ≥ WAKE` turns it OFF. -/
theorem C2_backlight_machine (cfg : Config) (hW : 0 < cfg.WAKE_DURATION) :
    (∀ (w : Option ℤ) (touch : Bool) (n : ℤ),
        backlight_step cfg false w false touch n = (true, none))
    ∧ (∀ n : ℤ, backlight_step cfg true none true false n = (false, none))
    ∧ (∀ (s : Bool) (w : Option ℤ) (t : ℤ),
        backlight_step cfg s w true true t = (true, some t))
    ∧ (∀ (t : ℤ) (times : List ℤ),
        (∀ n ∈ times, n - t < cfg.WAKE_DURATION) →
        backlight_run_untouched cfg (true, some t) times = (true, some t))
    ∧ (∀ t n : ℤ, n - t ≥ cfg.WAKE_DURATION →
        backlight_step cfg true (some t) true false n = (false, none)) := by
  refine ⟨?_, ?_, ?_, ?_, ?_⟩
  · intro w touch n
    unfold backlight_step
    simp
  · intro n
    unfold backlight_step
    simp
  · intro s w t
    unfold backlight_step
    simp only [Bool.and_self, if_true, Bool.and_true, ite_true]
    rw [if_neg (by omega)]
  · intro t times hin
    induction times with
    | nil => rfl
    | cons n ns ih =>
        have hlt : ¬ (n - t ≥ cfg.WAKE_DURATION) := by
          have := hin n (List.mem_cons_self n ns)
          omega
        have hstep : backlight_step cfg true (some t) true false n = (true, some t) := by
          unfold backlight_step
          simp [hlt]
        unfold backlight_run_untouched at *
        rw [List.foldl_cons, hstep]
        exact ih (fun m hm => hin m (List.mem_cons_of_mem n hm))
  · intro t n hexp
    unfold backlight_step
    simp [hexp]

/-- Witness for C2 with `WAKE_DURATION = 300`: a touch at time 1000 during
quiet hours wakes the screen, it survives the untouched quiet ticks at
1060, 1120 and 1299, and the untouched quiet tick at 1300 turns it off. -/
theorem C2_backlight_machine_witness :
    backlight_step ⟨23, 7, 300, 900⟩ false none false false 0 = (true, none)
    ∧ backlight_step ⟨23, 7, 300, 900⟩ true none true false 0 = (false, none)
    ∧ backlight_step ⟨23, 7, 300, 900⟩ false none true true 1000 = (true, some 1000)
    ∧ backlight_run_untouched ⟨23, 7, 300, 900⟩ (true, some 1000) [1060, 1120, 1299]
        = (true, some 1000)
    ∧ backlight_step ⟨23, 7, 300, 900⟩ true (some 1000) true false 1300 = (false, none) := by
  have h := C2_backlight_machine ⟨23, 7, 300, 900⟩ (by decide)
  exact ⟨h.1 none false 0, h.2.1 0, h.2.2.1 false none 1000,
    h.2.2.2.1 1000 [1060, 1120, 1299] (by decide), h.2.2.2.2 1000 1300 (by decide)⟩

/-- C4: a tick whose attempted fetch fails leaves `cached_data` exactly as it
was and does not update `last_fetch_time`, for every prior loop state. -/
theorem C4_failed_fetch_atomic {α : Type} (cfg : Config) (st : LoopState α)
    (now_ticks : ℤ) (now_h : ℕ) (touch : Bool) (e : String)
    (hdue : now_ticks - st.last_fetch_time ≥ cfg.REFRESH_SECS) :
    (tick cfg st now_ticks now_h touch (Except.error e)).1.cached_data = st.cached_data
    ∧ (tick cfg st now_ticks now_h touch (Except.error e)).1.last_fetch_time
        = st.last_fetch_time := by
  unfold tick
  rw [if_pos hdue]
  exact ⟨rfl, rfl⟩

/-- Witness for C4: a failing fetch on a due tick (cache `some 42`,
last fetch 0, now 900, refresh 900) keeps the cache and fetch time. -/
theorem C4_failed_fetch_atomic_witness :
    (tick ⟨23, 7, 300, 900⟩ ⟨true, none, some 42, 0⟩ 900 12 false
        (Except.error "timeout") : LoopState ℕ × List (DrawEvent ℕ)).1.cached_data
      = (⟨true, none, some 42, 0⟩ : LoopState ℕ).cached_data
    ∧ (tick ⟨23, 7, 300, 900⟩ ⟨true, none, some 42, 0⟩ 900 12 false
        (Except.error "timeout") : LoopState ℕ × List (DrawEvent ℕ)).1.last_fetch_time
      = (⟨true, none, some 42, 0⟩ : LoopState ℕ).last_fetch_time :=
  C4_failed_fetch_atomic ⟨23, 7, 300, 900⟩ ⟨true, none, some 42, 0⟩ 900 12 false
    "timeout" (by decide)

/-- C10: on a tick whose attempted fetch fails, the iteration's entire draw
output is the error screen when the backlight state (as decided this tick)
is ON, and nothing at all when it is OFF; the failing tick `continue`s, so
no dashboard redraw happens either way. -/
theorem C10_error_screen_gating {α : Type} (cfg : Config) (st : LoopState α)
    (now_ticks : ℤ) (now_h : ℕ) (touch : Bool) (e : String)
    (hdue : now_ticks - st.last_fetch_time ≥ cfg.REFRESH_SECS) :
    (tick cfg st now_ticks now_h touch (Except.error e)).2
      = if (backlight_step cfg st.screen_on st.woke_at
              (in_quiet_hours cfg.QUIET_START cfg.QUIET_END now_h) touch now_ticks).1
        then [DrawEvent.errorScreen e]
        else [] := by
  unfold tick
  rw [if_pos hdue]

/-- Witness for C10: with the screen OFF during quiet hours (hour 2, quiet
23–7, no wake timer), a failing due fetch draws nothing. -/
theorem C10_error_screen_gating_witness :
    (tick ⟨23, 7, 300, 900⟩ ⟨false, none, some 42, 0⟩ 900 2 false
        (Except.error "boom") : LoopState ℕ × List (DrawEvent ℕ)).2 = [] := by
  have h := C10_error_screen_gating ⟨23, 7, 300, 900⟩ ⟨false, none, some 42, 0⟩ 900 2
    false "boom" (by decide)
  rw [h]
  decide

end Dashboard
